import Mathlib

/-
Verification of the viajes-reservas travel itinerary generator.

Shallow embedding of the Python sources:
  src/app/services/itinerary_builder.py  (keyword extraction, highlight
    curation, daily schedule, recommendations, plan assembly)
  src/app/services/text_extractor.py     (attachment processing)
  src/app/main.py                        (generate and download handlers,
    in-memory plan store, date parsing)

Modelling conventions:
  - Python strings are Lean String values; per-character operations go
    through String.data (a List Char of code points, matching the way
    Python indexes and slices strings by code point).
  - datetime values are modelled by their day ordinal (an Int); the
    difference of two ordinals is exactly timedelta.days for midnight
    datetimes, which is all the handlers ever construct.  strftime output
    is a display detail and is not modelled: date fields of the plan keep
    the ordinal.
  - Python dict results become structures; the in-memory store becomes an
    association list with insertion at the head, looked up by first match
    (the semantics of inserting a fresh key into a dict).
  - Code paths that would raise an uncaught exception (indexing the
    placeholder string in _build_daily_schedule) are modelled by Option:
    none is the raising branch.
-/

/-! ## Python string primitives -/

/-- Whitespace test used by str.split with no arguments (ASCII fragment). -/
def pyIsSpace (c : Char) : Bool :=
  c = ' ' || c = '\t' || c = '\n' || c = '\r' || c = '\x0b' || c = '\x0c'

/-- Accumulator splitter: str.split() splits on runs of whitespace and
returns no empty fields.  The accumulator holds the current token reversed. -/
def pySplitAux : List Char → List Char → List (List Char)
  | [], acc => if acc.isEmpty then [] else [acc.reverse]
  | c :: rest, acc =>
    if pyIsSpace c then
      if acc.isEmpty then pySplitAux rest []
      else acc.reverse :: pySplitAux rest []
    else pySplitAux rest (c :: acc)

/-- Model of Python str.split() (no separator argument). -/
def pySplit (s : String) : List String :=
  (pySplitAux s.data []).map fun cs => ⟨cs⟩

/-- Model of Python str.lower (code-point-wise lowercasing). -/
def pyLower (s : String) : String :=
  ⟨s.data.map Char.toLower⟩

/-- Whether the first list starts the second one (code point equality). -/
def leadsWith : List Char → List Char → Bool
  | [], _ => true
  | _ :: _, [] => false
  | a :: as, b :: bs => a = b && leadsWith as bs

/-- Whether the first list occurs contiguously inside the second one. -/
def occursInL (needle : List Char) : List Char → Bool
  | [] => needle.isEmpty
  | b :: bs => leadsWith needle (b :: bs) || occursInL needle bs

/-- Model of the Python membership test `needle in hay` on strings:
substring containment, by code points, case sensitive. -/
def occursIn (needle hay : String) : Bool :=
  occursInL needle.data hay.data

/-- Model of the Python slice s[:n] on strings (first n code points). -/
def strTrunc (n : Nat) (s : String) : String :=
  ⟨s.data.take n⟩

/-- Lexicographic order on code point sequences: the order Python uses
to compare and sort strings. -/
def lexLe : List Char → List Char → Bool
  | [], _ => true
  | _ :: _, [] => false
  | a :: as, b :: bs =>
    if a.toNat < b.toNat then true
    else if b.toNat < a.toNat then false
    else lexLe as bs

/-- The order used by Python sorted() on strings, as a relation. -/
def strLe (a b : String) : Prop :=
  lexLe a.data b.data = true

instance : DecidableRel strLe :=
  fun a b => inferInstanceAs (Decidable (lexLe a.data b.data = true))

/-! ## itinerary_builder.py: keyword extraction -/

/-- ItineraryBuilder._extract_keywords: tokenize the extracted text on
whitespace, keep tokens longer than 3 characters, lowercase them into a
set, add the lowercased destination, and return the sorted list.
The Python set-then-sorted pipeline is modelled by dedup followed by an
insertion sort under the lexicographic code point order (the order Python
uses to sort strings). -/
def extractKeywords (extracted_text destination : String) : List String :=
  let tokens := ((pySplit extracted_text).filter (fun t => t.length > 3)).map pyLower
  List.insertionSort strLe (List.dedup (tokens ++ [pyLower destination]))

/-! ## itinerary_builder.py: highlight templates and curation -/

/-- One highlight template: title, summary and three time-of-day texts. -/
structure Highlight where
  title : String
  summary : String
  morning : String
  afternoon : String
  evening : String
deriving DecidableEq, Repr

/-- default_templates[0] in _curate_highlights. -/
def bienvenidaHighlight : Highlight :=
  { title := "Bienvenida y aclimatación"
    summary := "Recepción personalizada, check-in express y recorrido de orientación por el hotel."
    morning := "Traslado privado y recepción con amenities premium."
    afternoon := "City tour introductorio con guía experto en español."
    evening := "Cena de autor con maridaje diseñado por el sommelier de la casa." }

/-- default_templates[1] in _curate_highlights. -/
def culturaHighlight : Highlight :=
  { title := "Cultura y patrimonio"
    summary := "Acceso prioritario a museos icónicos y experiencias culturales privadas."
    morning := "Visita guiada antes de la apertura al público en el principal museo local."
    afternoon := "Encuentro con artesanos para un taller exclusivo detrás de bambalinas."
    evening := "Coctel en rooftop con vistas panorámicas y música en vivo." }

/-- default_templates[2] in _curate_highlights. -/
def saboresHighlight : Highlight :=
  { title := "Sabores locales"
    summary := "Ruta gastronómica con maridajes y experiencias culinarias de autor."
    morning := "Clase de cocina con chef reconocido para aprender recetas tradicionales."
    afternoon := "Tour de mercados gourmet y degustación de productos de temporada."
    evening := "Reserva VIP en restaurante insignia con menú degustación sorpresa." }

/-- default_templates[3] in _curate_highlights. -/
def bienestarHighlight : Highlight :=
  { title := "Bienestar y desconexión"
    summary := "Jornada enfocada en bienestar holístico con tratamientos de spa signature."
    morning := "Sesión de yoga o meditación guiada al amanecer."
    afternoon := "Circuito de hidroterapia y masaje de autor en cabina privada."
    evening := "Cena ligera de inspiración healthy con mixología botánica." }

/-- The adventure template appended for the theme keyword "aventura". -/
def aventuraHighlight : Highlight :=
  { title := "Aventura sob medida"
    summary := "Actividades outdoor con guías certificados y medidas de seguridad premium."
    morning := "Exploración privada por senderos exclusivos con picnic gourmet."
    afternoon := "Actividad adrenalínica como vuelo en helicóptero o navegación privada."
    evening := "Fogata o cena temática con storytelling local y mixología artesanal." }

/-- The art template appended for the theme keyword "arte". -/
def arteHighlight : Highlight :=
  { title := "Arte contemporáneo y clásico"
    summary := "Visitas privadas a galerías con curadores y coleccionistas."
    morning := "Recorrido con curador por galerías emergentes."
    afternoon := "Acceso a colección privada con anfitrión experto."
    evening := "Cena temática rodeada de arte con menú inspirado en artistas locales." }

/-- The history template appended for the theme keyword "historia". -/
def historiaHighlight : Highlight :=
  { title := "Historia viva"
    summary := "Rutas exclusivas por sitios patrimoniales con guía especializado."
    morning := "Visita privada a monumentos antes del horario público."
    afternoon := "Acceso a archivos históricos y encuentro con historiador local."
    evening := "Cena en edificio histórico con iluminación especial y menú de época." }

/-- The fixed fallback catalog default_templates. -/
def defaultTemplates : List Highlight :=
  [bienvenidaHighlight, culturaHighlight, saboresHighlight, bienestarHighlight]

/-- The fixed theme vocabulary scanned in _curate_highlights. -/
def themeVocabulary : List String :=
  ["cultura", "gastronomía", "aventura", "relax", "arte", "historia"]

/-- The if/elif chain inside the theme loop of _curate_highlights: which
template(s) a single theme keyword appends (none when no branch matches,
mirroring a loop iteration that appends nothing). -/
def themeHighlight (theme : String) : List Highlight :=
  if theme = "aventura" then [aventuraHighlight]
  else if theme = "cultura" then [culturaHighlight]
  else if theme = "gastronomía" then [saboresHighlight]
  else if theme = "relax" then [bienestarHighlight]
  else if theme = "arte" then [arteHighlight]
  else if theme = "historia" then [historiaHighlight]
  else []

/-- The sort key in _curate_highlights:
`lambda item: "aventura" not in item["title"]`. -/
def aventuraSortKey (h : Highlight) : Bool :=
  !(occursIn "aventura" h.title)

/-- The theme loop of _curate_highlights: the templates appended for the
theme keywords found in the keyword list, in keyword order. -/
def curatedThemes (keywords : List String) : List Highlight :=
  ((keywords.filter (fun k => k ∈ themeVocabulary)).map themeHighlight).flatten

/-- ItineraryBuilder._curate_highlights.  A Python stable sort on a Bool
key is exactly the stable partition that lists the key-False elements
first, in order, followed by the key-True elements, in order. -/
def curateHighlights (keywords : List String) (travel_style : String) : List Highlight :=
  let highlights :=
    if (curatedThemes keywords).isEmpty then defaultTemplates else curatedThemes keywords
  if pyLower travel_style ∈ ["aventura", "experiencial"] then
    highlights.filter (fun h => !(aventuraSortKey h))
      ++ highlights.filter (fun h => aventuraSortKey h)
  else highlights

/-! ## itinerary_builder.py: request, daily schedule, recommendations, plan -/

/-- ItineraryRequest: dates are modelled as day ordinals (Int). -/
structure ItineraryRequest where
  client_name : String
  start_date : Int
  end_date : Int
  destination : String
  travel_style : String
  special_requests : String
deriving DecidableEq, Repr

/-- One entry of the daily schedule.  The date field keeps the day
ordinal; its strftime rendering is display-only and not modelled. -/
structure DayEntry where
  date : Int
  title : String
  summary : String
  morning : String
  afternoon : String
  evening : String
deriving DecidableEq, Repr

/-- ItineraryBuilder._build_daily_schedule.  When the curated list is
empty the Python code binds the bare string "Exploración libre" and then
evaluates highlight["title"], which raises TypeError; that branch is
modelled as none. -/
def buildDailySchedule (req : ItineraryRequest) (extracted_text : String) :
    Option (List DayEntry) :=
  match curateHighlights (extractKeywords extracted_text req.destination) req.travel_style with
  | [] => none
  | c :: cs =>
    some ((List.range (req.end_date - req.start_date + 1).toNat).map fun offset =>
      let h := (c :: cs).get ⟨offset % (cs.length + 1), Nat.mod_lt _ (Nat.succ_pos _)⟩
      { date := req.start_date + offset
        title := "Día " ++ toString (offset + 1) ++ " - " ++ h.title
        summary := h.summary
        morning := h.morning
        afternoon := h.afternoon
        evening := h.evening })

/-- The four recommendation category lists. -/
structure Recommendations where
  gastronomy : List String
  logistics : List String
  wellness : List String
  insider : List String
deriving DecidableEq, Repr

/-- Rule string appended to insider for family keywords. -/
def familySuggestion : String :=
  "Reservar actividades con guía privado enfocado en familias para maximizar seguridad y aprendizaje."

/-- Rule string appended to logistics for business keywords. -/
def businessSuggestion : String :=
  "Incluir tiempos de traslado flexibles y salas de reuniones en cada hotel seleccionado."

/-- Rule string appended to gastronomy for the gastronomy substring rule. -/
def culinarySuggestion : String :=
  "Coordinar experiencias culinarias con chefs locales y reservas anticipadas en restaurantes icónicos."

/-- Rule string appended to wellness for luxury travel styles. -/
def spaSuggestion : String :=
  "Añadir tratamientos de spa o rituales de bienestar exclusivos en los hoteles boutique seleccionados."

/-- Rule string embedding the special requests, appended to insider. -/
def specialRequestsSuggestion (special_requests : String) : String :=
  "Considerar peticiones especiales: " ++ special_requests ++ "."

/-- Default fill for an empty gastronomy category. -/
def defaultGastronomy : String :=
  "Programar una cena de bienvenida con degustación regional y maridaje de vinos locales."

/-- Default fill for an empty logistics category. -/
def defaultLogistics : String :=
  "Gestionar traslados privados puerta a puerta con asistencia multilingüe."

/-- Default fill for an empty wellness category. -/
def defaultWellness : String :=
  "Bloquear espacios de tiempo para actividades regenerativas como yoga al amanecer o masajes signature."

/-- Default fill for an empty insider category. -/
def defaultInsider : String :=
  "Ofrecer un concierge 24/7 para ajustes de último minuto y acceso a experiencias exclusivas."

/-- The conditional phase of _build_recommendations: the five if-rules,
applied independently, in source order (within insider the family rule
precedes the special-requests rule). -/
def conditionalRecommendations (req : ItineraryRequest) (extracted_text : String) :
    Recommendations :=
  let keywords := extractKeywords extracted_text req.destination
  { gastronomy :=
      if occursIn "gastronom" (String.join keywords) then [culinarySuggestion] else []
    logistics :=
      if "negocio" ∈ keywords ∨ "corporativo" ∈ keywords then [businessSuggestion] else []
    wellness :=
      if pyLower req.travel_style ∈ ["premium", "lujo", "luxury"] then [spaSuggestion] else []
    insider :=
      (if "family" ∈ keywords ∨ "familia" ∈ keywords then [familySuggestion] else [])
        ++ (if req.special_requests ≠ "" then [specialRequestsSuggestion req.special_requests] else []) }

/-- The default-fill phase of _build_recommendations: a category still
empty after the conditional rules receives its fixed default suggestion. -/
def fillDefaults (r : Recommendations) : Recommendations :=
  { gastronomy := if r.gastronomy.isEmpty then r.gastronomy ++ [defaultGastronomy] else r.gastronomy
    logistics := if r.logistics.isEmpty then r.logistics ++ [defaultLogistics] else r.logistics
    wellness := if r.wellness.isEmpty then r.wellness ++ [defaultWellness] else r.wellness
    insider := if r.insider.isEmpty then r.insider ++ [defaultInsider] else r.insider }

/-- ItineraryBuilder._build_recommendations. -/
def buildRecommendations (req : ItineraryRequest) (extracted_text : String) :
    Recommendations :=
  fillDefaults (conditionalRecommendations req extracted_text)

/-! ## text_extractor.py -/

/-- AttachmentSummary (dataclass); to_dict is the identity on this data. -/
structure AttachmentSummary where
  filename : String
  content_type : String
  notes : String
deriving DecidableEq, Repr

/-- Outcome of running PdfReader over an attachment stream: either the
per-page extract_text results (none when a page returns None), or a
failure carrying the pages already appended before the exception and the
exception message rendered by str. -/
inductive PdfOutcome where
  | ok (pages : List (Option String))
  | fail (already : List (Option String)) (msg : String)
deriving DecidableEq, Repr

/-- An uploaded FileStorage handle, with the externally determined
results of reading it: the UTF-8 decoded body for the text path and the
PdfReader outcome for the PDF path.  Empty strings model the falsy
missing filename and mimetype. -/
structure FileStorage where
  filename : String
  mimetype : String
  textBody : String
  pdfParse : PdfOutcome
deriving DecidableEq, Repr

/-- TextExtractor._read_pdf: returns the note and the page fragments it
appends to the shared fragment list (extract_text() or "" per page; on
failure the message, truncated to 200 code points, becomes the note and
only the pages read before the exception were appended).  The
stream.seek(0) in the finally block has no observable effect on this
data and is not modelled. -/
def readPdf (fs : FileStorage) : String × List String :=
  match fs.pdfParse with
  | .ok pages =>
    ("Texto extraído del PDF.", pages.map (fun p => p.getD ""))
  | .fail already msg =>
    (strTrunc 200 ("No se pudo leer el PDF: " ++ msg), already.map (fun p => p.getD ""))

/-- The per-file step of TextExtractor.extract: the fragments this file
contributes and its AttachmentSummary. -/
def processAttachment (pdfAvailable : Bool) (fs : FileStorage) :
    List String × AttachmentSummary :=
  let content_type := if fs.mimetype = "" then "application/octet-stream" else fs.mimetype
  let filename := if fs.filename = "" then "documento" else fs.filename
  let (frags, notes) :=
    if content_type = "text/plain" then
      ([fs.textBody], "Texto leído correctamente.")
    else if content_type = "application/pdf" ∧ pdfAvailable = true then
      let r := readPdf fs
      (r.2, r.1)
    else
      ([], "Formato no procesado automáticamente; se considerará para contexto general.")
  (frags, { filename := filename, content_type := content_type, notes := notes })

/-- The loop of TextExtractor.extract, with the two accumulator lists it
mutates (text_fragments and summaries). -/
def extractLoop (pdfAvailable : Bool) :
    List FileStorage → List String → List AttachmentSummary →
    List String × List AttachmentSummary
  | [], frags, sums => (frags, sums)
  | fs :: rest, frags, sums =>
    let step := processAttachment pdfAvailable fs
    extractLoop pdfAvailable rest (frags ++ step.1) (sums ++ [step.2])

/-- TextExtractor.extract: pdfAvailable models `PdfReader is not None`. -/
def extract (pdfAvailable : Bool) (attachments : List FileStorage) :
    String × List AttachmentSummary :=
  let r := extractLoop pdfAvailable attachments [] []
  (String.intercalate "\n" r.1, r.2)

/-! ## itinerary_builder.py: plan assembly -/

/-- The client sub-dictionary of the plan. -/
structure ClientInfo where
  name : String
  style : String
  special_requests : String
deriving DecidableEq, Repr

/-- The trip sub-dictionary of the plan; dates stay as ordinals. -/
structure TripInfo where
  destination : String
  start_date : Int
  end_date : Int
  nights : Int
deriving DecidableEq, Repr

/-- The plan dictionary produced by ItineraryBuilder.build. -/
structure Plan where
  client : ClientInfo
  trip : TripInfo
  days : List DayEntry
  recommendations : Recommendations
  attachments : List AttachmentSummary
deriving DecidableEq, Repr

/-- ItineraryBuilder.build: assembles the plan dictionary.  Option
propagates the raising branch of _build_daily_schedule. -/
def build (req : ItineraryRequest) (extracted_text : String)
    (attachments : List AttachmentSummary) : Option Plan :=
  match buildDailySchedule req extracted_text with
  | none => none
  | some days =>
    some
      { client :=
          { name := req.client_name
            style := req.travel_style
            special_requests := req.special_requests }
        trip :=
          { destination := req.destination
            start_date := req.start_date
            end_date := req.end_date
            nights := req.end_date - req.start_date + 1 }
        days := days
        recommendations := buildRecommendations req extracted_text
        attachments := attachments }

/-! ## main.py: date parsing -/

/-- Gregorian leap year test. -/
def isLeapYear (y : Nat) : Bool :=
  y % 4 = 0 && (y % 100 ≠ 0 || y % 400 = 0)

/-- Length of a month in a given year. -/
def daysInMonth (y m : Nat) : Nat :=
  if m = 2 then (if isLeapYear y then 29 else 28)
  else if m = 4 ∨ m = 6 ∨ m = 9 ∨ m = 11 then 30
  else 31

/-- Day ordinal of a valid calendar date (days since 0000-03-01, the
standard civil-from-days algorithm restricted to years ≥ 1, so all
arithmetic stays in Nat). -/
def dayOrdinal (y m d : Nat) : Nat :=
  let yShift := y - (if m ≤ 2 then 1 else 0)
  let era := yShift / 400
  let yoe := yShift % 400
  let mp := (m + 9) % 12
  let doy := (153 * mp + 2) / 5 + (d - 1)
  let doe := yoe * 365 + yoe / 4 - yoe / 100 + doy
  era * 146097 + doe

/-- Whether every character of the list is an ASCII digit. -/
def allDigits (cs : List Char) : Bool :=
  cs.all Char.isDigit

/-- Numeric value of a digit string. -/
def digitsToNat (cs : List Char) : Nat :=
  cs.foldl (fun acc c => acc * 10 + (c.toNat - 48)) 0

/-- Split a character list on a separator character, keeping empties. -/
def splitOnChar (sep : Char) : List Char → List (List Char)
  | [] => [[]]
  | c :: rest =>
    let r := splitOnChar sep rest
    if c = sep then [] :: r
    else
      match r with
      | [] => [[c]]
      | g :: gs => (c :: g) :: gs

/-- Model of _parse_date, i.e. datetime.strptime(value, "%Y-%m-%d"):
exactly three dash-separated all-digit fields, a 4-digit year, a month of
1 or 2 digits in 1..12 and a day of 1 or 2 digits valid for that month,
with datetime accepting years from 1 upward.  Returns the day ordinal. -/
def parseDate (value : String) : Option Int :=
  match splitOnChar '-' value.data with
  | [ys, ms, ds] =>
    if allDigits ys ∧ allDigits ms ∧ allDigits ds ∧
        ys.length = 4 ∧ 1 ≤ ms.length ∧ ms.length ≤ 2 ∧ 1 ≤ ds.length ∧ ds.length ≤ 2 then
      let y := digitsToNat ys
      let m := digitsToNat ms
      let d := digitsToNat ds
      if 1 ≤ y ∧ 1 ≤ m ∧ m ≤ 12 ∧ 1 ≤ d ∧ d ≤ daysInMonth y m then
        some (Int.ofNat (dayOrdinal y m d))
      else none
    else none
  | _ => none

/-! ## main.py: plan store and handlers -/

/-- The module-level _GENERATED_ITINERARIES dict: an association list
with fresh insertions at the head. -/
abbrev Store := List (String × Plan)

/-- Dict lookup by identifier (first match). -/
def storeGet (store : Store) (itinerary_id : String) : Option Plan :=
  match store with
  | [] => none
  | (k, v) :: rest => if k = itinerary_id then some v else storeGet rest itinerary_id

/-- The submitted form of POST /generate: none models a missing field,
and the uploaded attachments after the FileStorage filter in line 55 of
main.py is applied inside the handler below. -/
structure GenerateForm where
  start_date : Option String
  end_date : Option String
  client_name : Option String
  primary_destination : Option String
  travel_style : Option String
  special_requests : Option String
  attachments : List FileStorage
deriving Repr

/-- Observable outcome of the generate handler. -/
inductive GenerateResult where
  | errorRedirect (message : String)
  | page (itinerary_id : String) (plan : Plan)
  | serverFault
deriving DecidableEq, Repr

/-- Flash message for unparsable or missing dates. -/
def invalidDateMessage : String :=
  "Las fechas proporcionadas no son válidas. Usa el formato AAAA-MM-DD."

/-- Flash message for end date before start date. -/
def dateOrderMessage : String :=
  "La fecha de fin debe ser posterior a la fecha de inicio."

/-- Flash message of the download handler for an unknown identifier. -/
def notFoundMessage : String :=
  "No se encontró el itinerario solicitado."

/-- generate_itinerary in main.py.  pdfAvailable models `PdfReader is
not None`; freshId models `uuid.uuid4().hex` (fresh by assumption of the
uuid collision-free model).  serverFault models an uncaught exception
(the 500 path); C10 shows it is unreachable. -/
def generateItinerary (pdfAvailable : Bool) (freshId : String)
    (form : GenerateForm) (store : Store) : GenerateResult × Store :=
  match form.start_date.bind parseDate, form.end_date.bind parseDate with
  | some s, some e =>
    if e < s then (.errorRedirect dateOrderMessage, store)
    else
      let req : ItineraryRequest :=
        { client_name := form.client_name.getD "Cliente"
          start_date := s
          end_date := e
          destination := form.primary_destination.getD "Destino principal"
          travel_style := form.travel_style.getD "Premium"
          special_requests := form.special_requests.getD "" }
      let files := form.attachments.filter (fun f => f.filename ≠ "")
      let r := extract pdfAvailable files
      match build req r.1 r.2 with
      | some plan => (.page freshId plan, (freshId, plan) :: store)
      | none => (.serverFault, store)
  | _, _ => (.errorRedirect invalidDateMessage, store)

/-- Observable outcome of the download handler. -/
inductive DownloadResult where
  | notFoundRedirect (message : String)
  | file (download_name : String) (plan : Plan)
deriving DecidableEq, Repr

/-- The attachment filename computed in download_itinerary_pdf. -/
def downloadName (plan : Plan) : String :=
  "itinerario_" ++ pyLower ⟨plan.client.name.data.map (fun c => if c = ' ' then '_' else c)⟩ ++ ".pdf"

/-- download_itinerary_pdf in main.py.  `if not itinerary` is a falsy
test on the dict; a generated plan dict is never empty, so it is exactly
the None test modelled here.  The renderer is a pure function of the
plan; the outcome carries the plan it would serialize. -/
def downloadItineraryPdf (store : Store) (itinerary_id : String) : DownloadResult :=
  match storeGet store itinerary_id with
  | none => .notFoundRedirect notFoundMessage
  | some plan => .file (downloadName plan) plan

/-! ## Order lemmas for the keyword sort -/

lemma lexLe_total : ∀ as bs : List Char, lexLe as bs = true ∨ lexLe bs as = true := by
  intro as
  induction as with
  | nil => intro bs; left; rfl
  | cons a as ih =>
    intro bs
    cases bs with
    | nil => right; rfl
    | cons b bs =>
      by_cases h1 : a.toNat < b.toNat
      · left; simp [lexLe, h1]
      · by_cases h2 : b.toNat < a.toNat
        · right; simp [lexLe, h2]
        · rcases ih bs with h | h
          · left; simp [lexLe, h1, h2, h]
          · right; simp [lexLe, h1, h2, h]

lemma lexLe_trans :
    ∀ as bs cs : List Char, lexLe as bs = true → lexLe bs cs = true → lexLe as cs = true := by
  intro as
  induction as with
  | nil => intro bs cs _ _; rfl
  | cons a as ih =>
    intro bs cs h1 h2
    cases bs with
    | nil => simp [lexLe] at h1
    | cons b bs =>
      cases cs with
      | nil => simp [lexLe] at h2
      | cons c cs =>
        by_cases hab : a.toNat < b.toNat
        · by_cases hbc : b.toNat < c.toNat
          · have hac : a.toNat < c.toNat := Nat.lt_trans hab hbc
            simp [lexLe, hac]
          · by_cases hcb : c.toNat < b.toNat
            · simp [lexLe, hbc, hcb] at h2
            · have hac : a.toNat < c.toNat := by omega
              simp [lexLe, hac]
        · by_cases hba : b.toNat < a.toNat
          · simp [lexLe, hab, hba] at h1
          · by_cases hbc : b.toNat < c.toNat
            · have hac : a.toNat < c.toNat := by omega
              simp [lexLe, hac]
            · by_cases hcb : c.toNat < b.toNat
              · simp [lexLe, hbc, hcb] at h2
              · have h1' : lexLe as bs = true := by simpa [lexLe, hab, hba] using h1
                have h2' : lexLe bs cs = true := by simpa [lexLe, hbc, hcb] using h2
                have hac1 : ¬a.toNat < c.toNat := by omega
                have hac2 : ¬c.toNat < a.toNat := by omega
                simp [lexLe, hac1, hac2, ih bs cs h1' h2']

instance : IsTotal String strLe :=
  ⟨fun a b => lexLe_total a.data b.data⟩

instance : IsTrans String strLe :=
  ⟨fun a b c => lexLe_trans a.data b.data c.data⟩

/-! ## Helper lemmas about the embedded operations -/

lemma extractKeywords_nodup (text dest : String) : (extractKeywords text dest).Nodup := by
  unfold extractKeywords
  exact ((List.perm_insertionSort strLe _).nodup_iff).mpr (List.nodup_dedup _)

lemma mem_extractKeywords (text dest s : String) :
    s ∈ extractKeywords text dest ↔
      (∃ t, t ∈ pySplit text ∧ t.length > 3 ∧ pyLower t = s) ∨ s = pyLower dest := by
  unfold extractKeywords
  rw [List.mem_insertionSort, List.mem_dedup, List.mem_append]
  simp only [List.mem_map, List.mem_filter, List.mem_singleton, decide_eq_true_eq]
  constructor
  · rintro (⟨t, ⟨ht, hlen⟩, rfl⟩ | rfl)
    · exact Or.inl ⟨t, ht, hlen, rfl⟩
    · exact Or.inr rfl
  · rintro (⟨t, ht, hlen, rfl⟩ | rfl)
    · exact Or.inl ⟨t, ⟨ht, hlen⟩, rfl⟩
    · exact Or.inr rfl

lemma curateHighlights_perm (keywords : List String) (travel_style : String) :
    List.Perm (curateHighlights keywords travel_style)
      (if (curatedThemes keywords).isEmpty then defaultTemplates else curatedThemes keywords) := by
  unfold curateHighlights
  by_cases hs : pyLower travel_style ∈ ["aventura", "experiencial"]
  · simp only [hs, if_true]
    simpa [Bool.not_not] using
      List.filter_append_perm (fun h => !(aventuraSortKey h))
        (if (curatedThemes keywords).isEmpty then defaultTemplates else curatedThemes keywords)
  · simp only [hs, if_false]
    exact List.Perm.refl _

lemma curateHighlights_ne_nil (keywords : List String) (travel_style : String) :
    curateHighlights keywords travel_style ≠ [] := by
  have hperm := curateHighlights_perm keywords travel_style
  intro hnil
  rw [hnil] at hperm
  have hlen := hperm.length_eq
  by_cases hc : (curatedThemes keywords).isEmpty
  · simp [hc, defaultTemplates] at hlen
  · rw [if_neg hc] at hlen
    have : curatedThemes keywords = [] := List.length_eq_zero.mp hlen.symm
    rw [this] at hc
    exact hc rfl

lemma exists_schedule (req : ItineraryRequest) (text : String) :
    ∃ ds, buildDailySchedule req text = some ds ∧
      ds.length = (req.end_date - req.start_date + 1).toNat ∧
      ∀ entry ∈ ds,
        ∃ h, h ∈ curateHighlights (extractKeywords text req.destination) req.travel_style ∧
          entry.summary = h.summary ∧ entry.morning = h.morning ∧
          entry.afternoon = h.afternoon ∧ entry.evening = h.evening ∧
          ∃ n : Nat, entry.title = "Día " ++ toString n ++ " - " ++ h.title := by
  have hne := curateHighlights_ne_nil (extractKeywords text req.destination) req.travel_style
  rcases hcur : curateHighlights (extractKeywords text req.destination) req.travel_style with
    _ | ⟨c, cs⟩
  · exact absurd hcur hne
  · unfold buildDailySchedule
    rw [hcur]
    refine ⟨_, rfl, by simp, ?_⟩
    intro entry hmem
    simp only [List.mem_map, List.mem_range] at hmem
    obtain ⟨offset, -, rfl⟩ := hmem
    exact ⟨(c :: cs).get ⟨offset % (cs.length + 1), Nat.mod_lt _ (Nat.succ_pos _)⟩,
      List.get_mem _ _ _, rfl, rfl, rfl, rfl, offset + 1, rfl⟩

lemma build_eq (req : ItineraryRequest) (text : String) (atts : List AttachmentSummary) :
    ∃ ds, buildDailySchedule req text = some ds ∧
      build req text atts = some
        { client :=
            { name := req.client_name
              style := req.travel_style
              special_requests := req.special_requests }
          trip :=
            { destination := req.destination
              start_date := req.start_date
              end_date := req.end_date
              nights := req.end_date - req.start_date + 1 }
          days := ds
          recommendations := buildRecommendations req text
          attachments := atts } := by
  obtain ⟨ds, hds, -⟩ := exists_schedule req text
  exact ⟨ds, hds, by unfold build; rw [hds]⟩

lemma fill_ne_nil (l : List String) (d : String) :
    (if l.isEmpty then l ++ [d] else l) ≠ [] := by
  by_cases h : l.isEmpty
  · simp [h, List.isEmpty_iff.mp h]
  · intro heq
    rw [if_neg h] at heq
    exact h (by simp [heq])

lemma fill_of_empty (l : List String) (d : String) (h : l = []) :
    (if l.isEmpty then l ++ [d] else l) = [d] := by
  subst h; rfl

/-! ## Claim theorems -/

/-- C1: for every request with start_date ≤ end_date, build returns a
plan whose day list has exactly (end − start) + 1 entries and whose
trip.nights equals that same inclusive day span. -/
theorem c1_day_count_and_nights (req : ItineraryRequest) (text : String)
    (atts : List AttachmentSummary) (h : req.start_date ≤ req.end_date) :
    ∃ plan, build req text atts = some plan ∧
      (plan.days.length : Int) = req.end_date - req.start_date + 1 ∧
      plan.trip.nights = req.end_date - req.start_date + 1 := by
  obtain ⟨ds, hds, hlen, -⟩ := exists_schedule req text
  obtain ⟨ds', hds', hb⟩ := build_eq req text atts
  rw [hds] at hds'
  obtain rfl : ds = ds' := Option.some.inj hds'
  refine ⟨_, hb, ?_, rfl⟩
  rw [hlen]
  exact Int.toNat_of_nonneg (by omega)

/-- Witness for C1 at a concrete three-day request. -/
theorem c1_witness :
    ((0 : Int) ≤ 2) ∧
    ∃ plan, build ⟨"Ana", 0, 2, "Roma", "Premium", ""⟩ "" [] = some plan ∧
      (plan.days.length : Int) = 2 - 0 + 1 ∧ plan.trip.nights = 2 - 0 + 1 :=
  ⟨by decide, c1_day_count_and_nights ⟨"Ana", 0, 2, "Roma", "Premium", ""⟩ "" [] (by decide)⟩

/-- C2: every recommendation category of the built bundle is non-empty,
and a category left empty by the conditional rules is exactly its fixed
default suggestion. -/
theorem c2_default_fill (req : ItineraryRequest) (text : String) :
    ((buildRecommendations req text).gastronomy ≠ [] ∧
     (buildRecommendations req text).logistics ≠ [] ∧
     (buildRecommendations req text).wellness ≠ [] ∧
     (buildRecommendations req text).insider ≠ []) ∧
    ((conditionalRecommendations req text).gastronomy = [] →
      (buildRecommendations req text).gastronomy = [defaultGastronomy]) ∧
    ((conditionalRecommendations req text).logistics = [] →
      (buildRecommendations req text).logistics = [defaultLogistics]) ∧
    ((conditionalRecommendations req text).wellness = [] →
      (buildRecommendations req text).wellness = [defaultWellness]) ∧
    ((conditionalRecommendations req text).insider = [] →
      (buildRecommendations req text).insider = [defaultInsider]) := by
  unfold buildRecommendations fillDefaults
  exact ⟨⟨fill_ne_nil _ _, fill_ne_nil _ _, fill_ne_nil _ _, fill_ne_nil _ _⟩,
    fun h => fill_of_empty _ _ h, fun h => fill_of_empty _ _ h,
    fun h => fill_of_empty _ _ h, fun h => fill_of_empty _ _ h⟩

/-- Witness for C2: a request and text leaving gastronomy empty in the
conditional phase really get the fixed default. -/
theorem c2_witness :
    (buildRecommendations ⟨"Ana", 0, 0, "Berlin", "Otro", ""⟩ "").gastronomy =
      [defaultGastronomy] :=
  (c2_default_fill ⟨"Ana", 0, 0, "Berlin", "Otro", ""⟩ "").2.1 (by decide)

/-- C9: storing a plan under a fresh identifier and retrieving it yields
the identical plan, and an identifier absent from the store yields the
not-found redirect. -/
theorem c9_store_roundtrip (store : Store) (itinerary_id : String) (plan : Plan) :
    downloadItineraryPdf ((itinerary_id, plan) :: store) itinerary_id =
      .file (downloadName plan) plan ∧
    (storeGet store itinerary_id = none →
      downloadItineraryPdf store itinerary_id = .notFoundRedirect notFoundMessage) := by
  constructor
  · simp [downloadItineraryPdf, storeGet]
  · intro h
    unfold downloadItineraryPdf
    rw [h]

/-- Witness for C9: the unknown-identifier case on the empty store. -/
theorem c9_witness :
    downloadItineraryPdf [] "x" = .notFoundRedirect notFoundMessage :=
  (c9_store_roundtrip [] "x"
    ⟨⟨"", "", ""⟩, ⟨"", 0, 0, 1⟩, [], ⟨[], [], [], []⟩, []⟩).2 rfl

/-- C10: _curate_highlights never returns an empty list, so the
placeholder branch of _build_daily_schedule is unreachable and every day
entry draws its content fields from a genuine curated highlight. -/
theorem c10_curated_nonempty :
    (∀ keywords style, curateHighlights keywords style ≠ []) ∧
    (∀ req text, ∃ ds, buildDailySchedule req text = some ds ∧
      ∀ entry ∈ ds,
        ∃ h, h ∈ curateHighlights (extractKeywords text req.destination) req.travel_style ∧
          entry.summary = h.summary ∧ entry.morning = h.morning ∧
          entry.afternoon = h.afternoon ∧ entry.evening = h.evening) := by
  constructor
  · exact curateHighlights_ne_nil
  · intro req text
    obtain ⟨ds, h1, -, h3⟩ := exists_schedule req text
    refine ⟨ds, h1, fun e he => ?_⟩
    obtain ⟨h, hm, h4, h5, h6, h7, -⟩ := h3 e he
    exact ⟨h, hm, h4, h5, h6, h7⟩

/-- Witness for C10 on a concrete keyword list and style. -/
theorem c10_witness : curateHighlights [] "Premium" ≠ [] :=
  c10_curated_nonempty.1 [] "Premium"

lemma nodup_all_eq_singleton {α : Type} (l : List α) (a : α) (hnd : l.Nodup)
    (hmem : a ∈ l) (hall : ∀ x ∈ l, x = a) : l = [a] := by
  cases l with
  | nil => cases hmem
  | cons x xs =>
    have hx : x = a := hall x (List.mem_cons_self _ _)
    subst hx
    cases xs with
    | nil => rfl
    | cons y ys =>
      have hy : y = x := hall y (by simp)
      subst hy
      exact absurd (List.mem_cons_self _ _) (List.nodup_cons.mp hnd).1

/-- C5: when the keyword set contains "aventura" and none of the other
theme keywords, the curated list is exactly the adventure template, and
its summary and time-of-day fields appear in every day entry, with the
title embedded in every day title (single-element cycle). -/
theorem c5_single_adventure_cycle (req : ItineraryRequest) (text : String)
    (hav : "aventura" ∈ extractKeywords text req.destination)
    (hc : "cultura" ∉ extractKeywords text req.destination)
    (hg : "gastronomía" ∉ extractKeywords text req.destination)
    (hr : "relax" ∉ extractKeywords text req.destination)
    (ha : "arte" ∉ extractKeywords text req.destination)
    (hh : "historia" ∉ extractKeywords text req.destination) :
    curateHighlights (extractKeywords text req.destination) req.travel_style =
      [aventuraHighlight] ∧
    ∃ ds, buildDailySchedule req text = some ds ∧
      ds.length = (req.end_date - req.start_date + 1).toNat ∧
      ∀ entry ∈ ds, entry.summary = aventuraHighlight.summary ∧
        entry.morning = aventuraHighlight.morning ∧
        entry.afternoon = aventuraHighlight.afternoon ∧
        entry.evening = aventuraHighlight.evening ∧
        ∃ n : Nat, entry.title = "Día " ++ toString n ++ " - " ++ aventuraHighlight.title := by
  have hfilter :
      (extractKeywords text req.destination).filter (fun k => k ∈ themeVocabulary) =
        ["aventura"] := by
    apply nodup_all_eq_singleton
    · exact (extractKeywords_nodup text req.destination).filter _
    · rw [List.mem_filter]
      exact ⟨hav, by decide⟩
    · intro x hx
      obtain ⟨hxk, hxv⟩ := List.mem_filter.mp hx
      rw [decide_eq_true_eq] at hxv
      simp only [themeVocabulary, List.mem_cons, List.mem_singleton] at hxv
      rcases hxv with rfl | rfl | rfl | rfl | rfl | rfl | h
      · exact absurd hxk hc
      · exact absurd hxk hg
      · rfl
      · exact absurd hxk hr
      · exact absurd hxk ha
      · exact absurd hxk hh
      · cases h
  have hct : curatedThemes (extractKeywords text req.destination) = [aventuraHighlight] := by
    unfold curatedThemes
    rw [hfilter]
    decide
  have hcurate :
      curateHighlights (extractKeywords text req.destination) req.travel_style =
        [aventuraHighlight] := by
    have hk : aventuraSortKey aventuraHighlight = true := by decide
    by_cases hs : pyLower req.travel_style ∈ ["aventura", "experiencial"]
    · simp [curateHighlights, hct, hs, hk]
    · simp [curateHighlights, hct, hs]
  obtain ⟨ds, hds, hlen, hfields⟩ := exists_schedule req text
  refine ⟨hcurate, ds, hds, hlen, fun e he => ?_⟩
  obtain ⟨h, hm, h4, h5, h6, h7, hn⟩ := hfields e he
  rw [hcurate, List.mem_singleton] at hm
  subst hm
  exact ⟨h4, h5, h6, h7, hn⟩

/-- Witness for C5: text "aventura", destination "Roma", two days. -/
theorem c5_witness :
    curateHighlights (extractKeywords "aventura" "Roma") "Premium" = [aventuraHighlight] ∧
    ∃ ds, buildDailySchedule ⟨"Ana", 0, 1, "Roma", "Premium", ""⟩ "aventura" = some ds ∧
      ds.length = ((1 : Int) - 0 + 1).toNat ∧
      ∀ entry ∈ ds, entry.summary = aventuraHighlight.summary ∧
        entry.morning = aventuraHighlight.morning ∧
        entry.afternoon = aventuraHighlight.afternoon ∧
        entry.evening = aventuraHighlight.evening ∧
        ∃ n : Nat, entry.title = "Día " ++ toString n ++ " - " ++ aventuraHighlight.title :=
  c5_single_adventure_cycle ⟨"Ana", 0, 1, "Roma", "Premium", ""⟩ "aventura"
    (by decide) (by decide) (by decide) (by decide) (by decide) (by decide)

/-- C6: the keyword list is sorted in the lexicographic code point
order, duplicate-free, and contains exactly the lowercased tokens of the
text longer than 3 characters together with the lowercased destination. -/
theorem c6_keyword_extraction (text dest : String) :
    (extractKeywords text dest).Sorted strLe ∧
    (extractKeywords text dest).Nodup ∧
    ∀ s : String, s ∈ extractKeywords text dest ↔
      (∃ t, t ∈ pySplit text ∧ t.length > 3 ∧ pyLower t = s) ∨ s = pyLower dest := by
  refine ⟨?_, extractKeywords_nodup text dest, mem_extractKeywords text dest⟩
  unfold extractKeywords
  exact List.sorted_insertionSort strLe _

/-- Witness for C6 at a concrete text and destination. -/
theorem c6_witness :
    (extractKeywords "hola mundo" "Roma").Sorted strLe ∧
    (extractKeywords "hola mundo" "Roma").Nodup ∧
    ∀ s : String, s ∈ extractKeywords "hola mundo" "Roma" ↔
      (∃ t, t ∈ pySplit "hola mundo" ∧ t.length > 3 ∧ pyLower t = s) ∨ s = pyLower "Roma" :=
  c6_keyword_extraction "hola mundo" "Roma"

lemma leadsWith_iff : ∀ n h : List Char, leadsWith n h = true ↔ n <+: h := by
  intro n
  induction n with
  | nil => intro h; simp [leadsWith]
  | cons a as ih =>
    intro h
    cases h with
    | nil => simp [leadsWith]
    | cons b bs => simp [leadsWith, List.cons_prefix_cons, ih, And.comm]

lemma occursInL_iff (n : List Char) : ∀ h : List Char, occursInL n h = true ↔ n <:+: h := by
  intro h
  induction h with
  | nil => simp [occursInL, List.isEmpty_iff]
  | cons b bs ih =>
    simp [occursInL, List.infix_cons_iff, leadsWith_iff, ih]

lemma foldl_append_data :
    ∀ (l : List String) (a : String),
      (l.foldl (fun r s => r ++ s) a).data = a.data ++ (l.map String.data).flatten := by
  intro l
  induction l with
  | nil => intro a; simp
  | cons x xs ih =>
    intro a
    simp [List.foldl_cons, ih, String.data_append, List.append_assoc]

lemma join_data (l : List String) : (String.join l).data = (l.map String.data).flatten := by
  simp [String.join, foldl_append_data]

lemma occursIn_join_of_mem (n k : String) (l : List String) (hk : k ∈ l)
    (h : occursIn n k = true) : occursIn n (String.join l) = true := by
  rw [occursIn, occursInL_iff] at h ⊢
  rw [join_data]
  obtain ⟨s, t, rfl⟩ := List.append_of_mem hk
  refine h.trans ⟨(s.map String.data).flatten, (t.map String.data).flatten, ?_⟩
  simp [List.append_assoc]

/-- C4 amended: the culinary suggestion is appended exactly when the
concatenation (with no separator) of the sorted keyword list contains
the substring "gastronom"; containment in a single keyword is sufficient
but not necessary, since the match may span adjacent keywords. -/
theorem c4_gastronomy_join_rule (req : ItineraryRequest) (text : String) :
    (culinarySuggestion ∈ (buildRecommendations req text).gastronomy ↔
      occursIn "gastronom" (String.join (extractKeywords text req.destination)) = true) ∧
    (∀ k ∈ extractKeywords text req.destination, occursIn "gastronom" k = true →
      culinarySuggestion ∈ (buildRecommendations req text).gastronomy) := by
  have hiff :
      culinarySuggestion ∈ (buildRecommendations req text).gastronomy ↔
        occursIn "gastronom" (String.join (extractKeywords text req.destination)) = true := by
    have hne : culinarySuggestion ≠ defaultGastronomy := by decide
    unfold buildRecommendations fillDefaults conditionalRecommendations
    by_cases hocc :
        occursIn "gastronom" (String.join (extractKeywords text req.destination)) = true
    · simp [hocc]
    · simp [hocc, hne]
  exact ⟨hiff, fun k hk h => hiff.mpr (occursIn_join_of_mem _ k _ hk h)⟩

/-- Witness for C4 amended: a single keyword containing the substring
makes the suggestion appear. -/
theorem c4_witness :
    culinarySuggestion ∈
      (buildRecommendations ⟨"Ana", 0, 0, "Valencia", "Otro", ""⟩
        "experiencia gastronomía").gastronomy :=
  (c4_gastronomy_join_rule ⟨"Ana", 0, 0, "Valencia", "Otro", ""⟩
    "experiencia gastronomía").2 "gastronomía" (by decide) (by decide)

/-- Counterexample for C4 as stated: with extracted text "agastro nomb"
and destination "roma" no single keyword contains "gastronom", yet the
culinary suggestion is appended, because the joined keyword string
"agastronombroma" contains the substring across a keyword boundary. -/
theorem c4_counterexample :
    extractKeywords "agastro nomb" "roma" = ["agastro", "nomb", "roma"] ∧
    occursIn "gastronom" "agastro" = false ∧
    occursIn "gastronom" "nomb" = false ∧
    occursIn "gastronom" "roma" = false ∧
    (buildRecommendations ⟨"Ana", 0, 0, "roma", "Otro", ""⟩ "agastro nomb").gastronomy =
      [culinarySuggestion] := by
  decide

lemma extractLoop_spec (pdfA : Bool) :
    ∀ (l : List FileStorage) (frags : List String) (sums : List AttachmentSummary),
      extractLoop pdfA l frags sums =
        (frags ++ (l.map (fun fs => (processAttachment pdfA fs).1)).flatten,
         sums ++ l.map (fun fs => (processAttachment pdfA fs).2)) := by
  intro l
  induction l with
  | nil => intro frags sums; simp [extractLoop]
  | cons fs rest ih =>
    intro frags sums
    simp [extractLoop, ih, List.append_assoc]

/-- C7: the extractor is a total function producing exactly one summary
per attachment, in input order, each depending only on its own file; a
PDF parsing failure is recorded only in that file's note, as the error
message truncated to at most 200 characters. -/
theorem c7_extractor_never_raises (pdfA : Bool) (attachments : List FileStorage) :
    (extract pdfA attachments).2 =
      attachments.map (fun fs => (processAttachment pdfA fs).2) ∧
    (extract pdfA attachments).2.length = attachments.length ∧
    ∀ fs ∈ attachments, ∀ (already : List (Option String)) (msg : String),
      fs.mimetype = "application/pdf" → pdfA = true → fs.pdfParse = .fail already msg →
        (processAttachment pdfA fs).2.notes =
          strTrunc 200 ("No se pudo leer el PDF: " ++ msg) ∧
        (processAttachment pdfA fs).2.notes.length ≤ 200 := by
  have hmap : (extract pdfA attachments).2 =
      attachments.map (fun fs => (processAttachment pdfA fs).2) := by
    simp [extract, extractLoop_spec]
  refine ⟨hmap, by rw [hmap]; exact List.length_map _ _, ?_⟩
  intro fs hfs already msg hmime hpdfA hparse
  subst hpdfA
  have h1 : ("application/pdf" : String) ≠ "" := by decide
  have h2 : ("application/pdf" : String) ≠ "text/plain" := by decide
  have hnotes : (processAttachment true fs).2.notes =
      strTrunc 200 ("No se pudo leer el PDF: " ++ msg) := by
    simp [processAttachment, readPdf, hmime, hparse, h1, h2]
  refine ⟨hnotes, ?_⟩
  rw [hnotes]
  show (List.take 200 (("No se pudo leer el PDF: " ++ msg).data)).length ≤ 200
  have := List.length_take 200 (("No se pudo leer el PDF: " ++ msg).data)
  omega

/-- Witness for C7: a failing PDF attachment gets the truncated error
note and nothing else fails. -/
theorem c7_witness :
    (processAttachment true ⟨"x.pdf", "application/pdf", "", .fail [] "boom"⟩).2.notes =
      strTrunc 200 ("No se pudo leer el PDF: " ++ "boom") ∧
    (processAttachment true
      ⟨"x.pdf", "application/pdf", "", .fail [] "boom"⟩).2.notes.length ≤ 200 :=
  (c7_extractor_never_raises true [⟨"x.pdf", "application/pdf", "", .fail [] "boom"⟩]).2.2
    ⟨"x.pdf", "application/pdf", "", .fail [] "boom"⟩ (List.mem_singleton_self _)
    [] "boom" rfl rfl rfl

lemma build_isSome (req : ItineraryRequest) (text : String)
    (atts : List AttachmentSummary) : ∃ plan, build req text atts = some plan := by
  obtain ⟨ds, -, hb⟩ := build_eq req text atts
  exact ⟨_, hb⟩

/-- C8: a missing or unparsable date field, or an end date before the
start date, redirects with an error and leaves the store unchanged;
otherwise a plan is built and inserted under the fresh identifier. -/
theorem c8_generate_validation (pdfA : Bool) (freshId : String)
    (form : GenerateForm) (store : Store) :
    ((form.start_date.bind parseDate = none ∨ form.end_date.bind parseDate = none) →
      generateItinerary pdfA freshId form store = (.errorRedirect invalidDateMessage, store)) ∧
    (∀ s e : Int, form.start_date.bind parseDate = some s →
      form.end_date.bind parseDate = some e → e < s →
      generateItinerary pdfA freshId form store = (.errorRedirect dateOrderMessage, store)) ∧
    (∀ s e : Int, form.start_date.bind parseDate = some s →
      form.end_date.bind parseDate = some e → s ≤ e →
      ∃ plan, generateItinerary pdfA freshId form store =
        (.page freshId plan, (freshId, plan) :: store)) := by
  refine ⟨?_, ?_, ?_⟩
  · intro h
    unfold generateItinerary
    rcases hs : form.start_date.bind parseDate with _ | s
    · rcases he : form.end_date.bind parseDate with _ | e
      · rfl
      · rfl
    · rcases he : form.end_date.bind parseDate with _ | e
      · rfl
      · rcases h with h | h
        · rw [hs] at h; cases h
        · rw [he] at h; cases h
  · intro s e hs he hlt
    unfold generateItinerary
    simp only [hs, he, Option.bind_some]
    rw [if_pos hlt]
  · intro s e hs he hle
    obtain ⟨plan, hplan⟩ := build_isSome
      { client_name := form.client_name.getD "Cliente"
        start_date := s
        end_date := e
        destination := form.primary_destination.getD "Destino principal"
        travel_style := form.travel_style.getD "Premium"
        special_requests := form.special_requests.getD "" }
      (extract pdfA (form.attachments.filter (fun f => f.filename ≠ ""))).1
      (extract pdfA (form.attachments.filter (fun f => f.filename ≠ ""))).2
    refine ⟨plan, ?_⟩
    unfold generateItinerary
    simp only [hs, he]
    rw [if_neg (not_lt.mpr hle)]
    simp only [hplan]

/-- Witness for C8: a valid pair of dates creates and stores a plan. -/
theorem c8_witness :
    ∃ plan, generateItinerary true "fresh"
        ⟨some "2024-03-01", some "2024-03-03", none, none, none, none, []⟩ [] =
      (.page "fresh" plan, [("fresh", plan)]) :=
  (c8_generate_validation true "fresh"
    ⟨some "2024-03-01", some "2024-03-03", none, none, none, none, []⟩ []).2.2
    739251 739253 (by decide) (by decide) (by decide)

/-- C3 evaluated on the code: with keywords arte and aventura and travel
style aventura, the curated order keeps the adventure-titled highlight
last, because the sort key looks for the lowercase literal and no
template title contains it, making the stable sort a no-op. -/
theorem c3_sort_is_noop :
    extractKeywords "aventura" "arte" = ["arte", "aventura"] ∧
    curateHighlights (extractKeywords "aventura" "arte") "aventura" =
      [arteHighlight, aventuraHighlight] ∧
    occursIn "Aventura" aventuraHighlight.title = true ∧
    occursIn "Aventura" arteHighlight.title = false ∧
    occursIn "aventura" aventuraHighlight.title = false := by
  decide
